import Mathlib

/-!
Shallow embedding of the Global Weather Forecasting App (`src/app.py`).

The app has four relevant operations:
* `geocode_location` — resolves a free-text query via one Nominatim HTTP call,
  catching `requests.RequestException` and returning `None` on failure;
* `fetch_weather` — fetches the Open-Meteo payload via one HTTP call with the
  same catch-all, passing the decoded JSON body through unmodified;
* `weathercode_to_text` — a static lookup from integer weather codes to
  description strings, defaulting to "Unknown";
* `make_daily_dataframe` — normalizes the raw daily block (five parallel
  sequences, each possibly missing) into a list of per-day rows, then converts
  the date column with `pd.to_datetime`.

The embedding models Python numbers as `Rat` (the app only passes numeric
values through; it never computes with them), Python `None` as `Option.none`,
dict keys that may be missing as `Option` fields, one HTTP call as consuming
index `0` of a response stream `Nat → HttpResponse β`, and a Python exception
escaping a function as `Except.error`.
-/

namespace WeatherApp

/-! ### HTTP transport model

`requests.get` either yields a 2xx response whose body JSON-decodes
(`success`), or raises a `requests.RequestException`. A timeout, a connection
error, the `raise_for_status()` call on a non-2xx status, and a
`resp.json()` decode failure (`requests.exceptions.JSONDecodeError`) are all
subclasses of `RequestException`, so both call sites catch all four and
return `None`. -/

inductive HttpFailure where
  | timeout
  | connectionError
  | statusError (status : Nat)
  | jsonDecodeError
deriving Repr, DecidableEq

inductive HttpResponse (β : Type) where
  | success (body : β)
  | failure (e : HttpFailure)
deriving Repr, DecidableEq

/-! ### Python `float(...)` on Nominatim string coordinates -/

/-- Split a character list at every occurrence of `c`, like Python
`str.split(c)` / `String.splitOn` on a one-character separator. -/
def splitOnChar (c : Char) : List Char → List (List Char)
  | [] => [[]]
  | x :: xs =>
      match splitOnChar c xs with
      | [] => if x == c then [[], []] else [[x]]
      | g :: gs => if x == c then [] :: g :: gs else (x :: g) :: gs

/-- The numeric value of a nonempty all-digit character list, `none`
otherwise (the semantics of `String.toNat?` / Python `int`-style digit
runs). -/
def digitsToNat (l : List Char) : Option Nat :=
  if l.isEmpty then none
  else l.foldl (fun acc c =>
    acc.bind (fun n => if c.isDigit then some (n * 10 + (c.toNat - 48)) else none))
    (some 0)

/-- Python `float(s)` on an optional-sign decimal string: `"24.86"`,
`"-74.0060"`, `"1."`, `".5"`, with surrounding whitespace allowed. Other
shapes are treated as a parse failure (Python raises `ValueError`). The
result is the exact decimal value as a rational. -/
def pyFloatOfString (s : String) : Option Rat :=
  let t := ((s.data.dropWhile Char.isWhitespace).reverse.dropWhile
      Char.isWhitespace).reverse
  let sgn : Int := match t with | '-' :: _ => -1 | _ => 1
  let u : List Char := match t with
    | '-' :: rest => rest
    | '+' :: rest => rest
    | _ => t
  match splitOnChar '.' u with
  | [w] => (digitsToNat w).map (fun n => mkRat (sgn * n) 1)
  | [w, f] =>
      if w.isEmpty && f.isEmpty then none
      else
        match (if w.isEmpty then some 0 else digitsToNat w),
              (if f.isEmpty then some 0 else digitsToNat f) with
        | some wn, some fn =>
            some (mkRat (sgn * (wn * 10 ^ f.length + fn)) (10 ^ f.length))
        | _, _ => none
  | _ => none

/-- Model of `float(item.get("lat"))`: `item.get` yields `None` when the key is absent,
and `float(None)` raises `TypeError`; `float` on an unparseable string raises
`ValueError`. Neither is a `RequestException`, so these escape the
`try`/`except` in `geocode_location`. -/
def pyFloat (v : Option String) : Except String Rat :=
  match v with
  | none => Except.error "TypeError: float() argument must not be None"
  | some s =>
      match pyFloatOfString s with
      | some r => Except.ok r
      | none => Except.error "ValueError: could not convert string to float"

/-! ### Location Resolver (`geocode_location`, src/app.py lines 16-42) -/

/-- One candidate in the Nominatim JSON list; each field may be absent. -/
structure GeoItem where
  lat : Option String
  lon : Option String
  display_name : Option String
deriving Repr, DecidableEq

/-- The decoded geocoding body: either a JSON list of candidates or some
other JSON value (the `isinstance(data, list)` check fails on the latter). -/
inductive GeoBody where
  | list (items : List GeoItem)
  | nonList
deriving Repr, DecidableEq

structure Location where
  lat : Rat
  lon : Rat
  name : String
deriving Repr, DecidableEq

/-- The function `geocode_location` from src/app.py. The single `requests.get` call
consumes index `0` of the response stream. `Except.error` models a Python
exception escaping the function (only the `float` conversions can do that);
`Except.ok none` models `return None`. -/
def geocode_location (query : String) (responses : Nat → HttpResponse GeoBody) :
    Except String (Option Location) :=
  match responses 0 with
  | HttpResponse.failure _ => Except.ok none
  | HttpResponse.success body =>
      match body with
      | GeoBody.nonList => Except.ok none
      | GeoBody.list [] => Except.ok none
      | GeoBody.list (item :: _) =>
          match pyFloat item.lat with
          | Except.error e => Except.error e
          | Except.ok la =>
              match pyFloat item.lon with
              | Except.error e => Except.error e
              | Except.ok lo =>
                  Except.ok (some { lat := la, lon := lo,
                                    name := item.display_name.getD query })

/-! ### Forecast Fetcher (`fetch_weather`, src/app.py lines 44-63) -/

/-- The function `fetch_weather` from src/app.py: one `requests.get`, `raise_for_status`,
then `return resp.json()` unmodified; every `RequestException` is caught and
`None` returned. Polymorphic in the body type because the function never
inspects the payload. -/
def fetch_weather {α : Type} (lat lon : Rat) (days : Nat)
    (responses : Nat → HttpResponse α) : Option α :=
  match responses 0 with
  | HttpResponse.success body => some body
  | HttpResponse.failure _ => none

/-! ### Weather Code Translator (`weathercode_to_text`, src/app.py lines 65-90) -/

/-- The static `mapping` dict inside `weathercode_to_text`. -/
def weathercode_mapping : List (Int × String) :=
  [(0, "Clear sky"),
   (1, "Mainly clear"),
   (2, "Partly cloudy"),
   (3, "Overcast"),
   (45, "Fog"),
   (48, "Depositing rime fog"),
   (51, "Drizzle: Light"),
   (53, "Drizzle: Moderate"),
   (55, "Drizzle: Dense"),
   (61, "Rain: Slight"),
   (63, "Rain: Moderate"),
   (65, "Rain: Heavy"),
   (71, "Snow fall: Slight"),
   (73, "Snow fall: Moderate"),
   (75, "Snow fall: Heavy"),
   (80, "Rain showers: Slight"),
   (81, "Rain showers: Moderate"),
   (82, "Rain showers: Violent"),
   (95, "Thunderstorm: Moderate"),
   (96, "Thunderstorm with slight hail"),
   (99, "Thunderstorm with heavy hail")]

/-- Model of `mapping.get(code, "Unknown")`. -/
def weathercode_to_text (code : Int) : String :=
  (weathercode_mapping.lookup code).getD "Unknown"

/-! ### Forecast Normalizer (`make_daily_dataframe`, src/app.py lines 92-111) -/

/-- A proleptic-Gregorian leap-year test, as used by `pandas` date parsing. -/
def isLeapYear (y : Nat) : Bool :=
  (y % 4 == 0 && y % 100 != 0) || (y % 400 == 0)

def daysInMonth (y m : Nat) : Nat :=
  if m == 2 then (if isLeapYear y then 29 else 28)
  else if m == 4 || m == 6 || m == 9 || m == 11 then 30
  else 31

structure CalDate where
  year : Nat
  month : Nat
  day : Nat
deriving Repr, DecidableEq

/-- A `pandas.Timestamp`: a calendar date plus nanoseconds since midnight and
an optional UTC offset (`none` = timezone-naive). `pd.to_datetime` on an ISO
`"YYYY-MM-DD"` string yields midnight, timezone-naive. -/
structure Timestamp where
  date : CalDate
  nsOfDay : Nat
  tzOffsetMinutes : Option Int
deriving Repr, DecidableEq

/-- Model of `pd.to_datetime` applied to one Open-Meteo daily date string
(`"YYYY-MM-DD"`). A string not of that shape, or with an invalid month/day,
raises in pandas and is modelled by `none`. -/
def parseDateString (s : String) : Option Timestamp :=
  match splitOnChar '-' s.data with
  | [y, m, d] =>
      match digitsToNat y, digitsToNat m, digitsToNat d with
      | some yn, some mn, some dn =>
          if 1 ≤ mn && mn ≤ 12 && 1 ≤ dn && dn ≤ daysInMonth yn mn
          then some ⟨⟨yn, mn, dn⟩, 0, none⟩
          else none
      | _, _, _ => none
  | _ => none

/-- The raw `"daily"` block: a Python dict in which each of the five keys the
code reads may be absent (`daily_json.get(key, [])`). -/
structure DailyJson where
  time : Option (List String)
  temperature_2m_max : Option (List Rat)
  temperature_2m_min : Option (List Rat)
  precipitation_sum : Option (List Rat)
  weathercode : Option (List Int)
deriving Repr, DecidableEq

/-- Python truthiness of the `daily_json` dict restricted to the keys the
code reads: `not daily_json` is true exactly when the dict is empty. -/
def dailyFalsy (dj : DailyJson) : Bool :=
  dj.time.isNone && dj.temperature_2m_max.isNone && dj.temperature_2m_min.isNone
    && dj.precipitation_sum.isNone && dj.weathercode.isNone

/-- One row of the resulting DataFrame, after the `date` column has been
converted by `pd.to_datetime`. -/
structure Row where
  date : Timestamp
  tmax : Option Rat
  tmin : Option Rat
  precip_mm : Option Rat
  weather_text : Option String
deriving Repr, DecidableEq

/-- The function `make_daily_dataframe` from src/app.py. The input is the Python argument
(`none` = Python `None`); `Except.ok none` models `return None`;
`Except.error` models an uncaught exception. The loop body
`tmax[i] if i < len(tmax) else None` is `tmax.get? i`, and
`weathercode_to_text(wcode[i]) if i < len(wcode) else None` is
`(wcode.get? i).map weathercode_to_text`. After the loop,
`df["date"] = pd.to_datetime(df["date"])` converts the whole date column:
on a zero-row frame `pd.DataFrame([])` has no columns at all, so `df["date"]`
raises `KeyError`; on a nonempty frame an unparseable date string raises in
`pd.to_datetime`. -/
def make_daily_dataframe (daily_json : Option DailyJson) :
    Except String (Option (List Row)) :=
  match daily_json with
  | none => Except.ok none
  | some dj =>
      if dailyFalsy dj then Except.ok none
      else
        let dates := dj.time.getD []
        let tmax := dj.temperature_2m_max.getD []
        let tmin := dj.temperature_2m_min.getD []
        let precip := dj.precipitation_sum.getD []
        let wcode := dj.weathercode.getD []
        if dates.isEmpty then
          Except.error "KeyError: date"
        else
          match dates.mapM parseDateString with
          | none => Except.error "ValueError: unable to parse date string"
          | some ts =>
              Except.ok (some (ts.enum.map (fun p =>
                { date := p.2,
                  tmax := tmax.get? p.1,
                  tmin := tmin.get? p.1,
                  precip_mm := precip.get? p.1,
                  weather_text := (wcode.get? p.1).map weathercode_to_text })))

/-- A daily block in which all five keys are present, as Open-Meteo returns. -/
def mkDaily (dates : List String) (tmax tmin precip : List Rat)
    (wcode : List Int) : DailyJson :=
  ⟨some dates, some tmax, some tmin, some precip, some wcode⟩

end WeatherApp

namespace WeatherApp

/-! ### Helper lemmas -/

theorem lookup_eq_none_of_not_mem_keys {α β : Type} [BEq α] [LawfulBEq α] :
    ∀ (l : List (α × β)) (a : α), a ∉ l.map Prod.fst → l.lookup a = none := by
  intro l
  induction l with
  | nil => intro a _; rfl
  | cons p l ih =>
      intro a h
      obtain ⟨k, v⟩ := p
      simp only [List.map_cons, List.mem_cons, not_or] at h
      obtain ⟨hne, hmem⟩ := h
      rw [List.lookup]
      have hb : (a == k) = false := beq_eq_false_iff_ne.mpr hne
      rw [hb]
      exact ih a hmem

theorem lookup_eq_some_of_mem {α β : Type} [BEq α] [LawfulBEq α] :
    ∀ (l : List (α × β)), (l.map Prod.fst).Nodup →
      ∀ (a : α) (b : β), (a, b) ∈ l → l.lookup a = some b := by
  intro l
  induction l with
  | nil => intro _ a b h; cases h
  | cons p l ih =>
      intro hnd a b hmem
      obtain ⟨k, v⟩ := p
      rw [List.map_cons, List.nodup_cons] at hnd
      obtain ⟨hk, hnd2⟩ := hnd
      rcases List.mem_cons.mp hmem with heq | hmem2
      · cases heq
        rw [List.lookup, beq_self_eq_true]
      · have ha : a ∈ l.map Prod.fst := by
          have := List.mem_map_of_mem Prod.fst hmem2
          simpa using this
        have hne : a ≠ k := fun hh => hk (hh ▸ ha)
        rw [List.lookup, beq_eq_false_iff_ne.mpr hne]
        exact ih hnd2 a b hmem2

theorem mapM_option_spec {α β : Type} (f : α → Option β) :
    ∀ (l : List α) (res : List β), l.mapM f = some res →
      res.length = l.length ∧ ∀ i, res.get? i = (l.get? i).bind f := by
  intro l
  induction l with
  | nil =>
      intro res h
      rw [List.mapM_nil] at h
      cases h
      exact ⟨rfl, fun i => by cases i <;> rfl⟩
  | cons a l ih =>
      intro res h
      rw [List.mapM_cons] at h
      cases hfa : f a with
      | none => rw [hfa] at h; cases h
      | some b =>
          rw [hfa] at h
          cases hl : l.mapM f with
          | none => rw [hl] at h; cases h
          | some bs =>
              rw [hl] at h
              cases h
              obtain ⟨hlen, hget⟩ := ih bs hl
              refine ⟨by simp [hlen], fun i => ?_⟩
              cases i with
              | zero => simp [hfa]
              | succ n => simpa using hget n

/-- C2: the weather code translator is total over the integers, never raises,
returns the exact mapped string for every code in the static table, and the
fixed "Unknown" label for every other integer code. -/
theorem C2_weathercode_translator_total (code : Int) :
    (∀ s, (code, s) ∈ weathercode_mapping → weathercode_to_text code = s) ∧
    (code ∉ weathercode_mapping.map Prod.fst →
      weathercode_to_text code = "Unknown") := by
  constructor
  · intro s hs
    unfold weathercode_to_text
    rw [lookup_eq_some_of_mem weathercode_mapping (by decide) code s hs]
    rfl
  · intro h
    unfold weathercode_to_text
    rw [lookup_eq_none_of_not_mem_keys weathercode_mapping code h]
    rfl

theorem C2_weathercode_translator_total_witness :
    weathercode_to_text 3 = "Overcast" ∧ weathercode_to_text 1000 = "Unknown" ∧
    weathercode_to_text 56 = "Unknown" ∧ weathercode_to_text (-1) = "Unknown" :=
  ⟨(C2_weathercode_translator_total 3).1 "Overcast" (by decide),
   (C2_weathercode_translator_total 1000).2 (by decide),
   (C2_weathercode_translator_total 56).2 (by decide),
   (C2_weathercode_translator_total (-1)).2 (by decide)⟩

/-- C4: the Location Resolver returns the same absence signal (`Except.ok
none`, i.e. Python `None`, not an exception) when the geocoder returns an
empty result list and on every transport failure: timeout, connection error,
non-2xx status, and a response body that fails JSON decoding. -/
theorem C4_geocode_absence (query : String)
    (responses : Nat → HttpResponse GeoBody) :
    (responses 0 = HttpResponse.success (GeoBody.list []) →
        geocode_location query responses = Except.ok none) ∧
    (responses 0 = HttpResponse.failure HttpFailure.timeout →
        geocode_location query responses = Except.ok none) ∧
    (responses 0 = HttpResponse.failure HttpFailure.connectionError →
        geocode_location query responses = Except.ok none) ∧
    (∀ status, responses 0 = HttpResponse.failure (HttpFailure.statusError status) →
        geocode_location query responses = Except.ok none) ∧
    (responses 0 = HttpResponse.failure HttpFailure.jsonDecodeError →
        geocode_location query responses = Except.ok none) := by
  refine ⟨fun h => ?_, fun h => ?_, fun h => ?_, fun status h => ?_, fun h => ?_⟩ <;>
    unfold geocode_location <;> rw [h]

theorem C4_geocode_absence_witness :
    geocode_location "Paris" (fun _ => HttpResponse.success (GeoBody.list [])) =
      Except.ok none ∧
    geocode_location "Paris" (fun _ => HttpResponse.failure HttpFailure.timeout) =
      Except.ok none ∧
    geocode_location "Paris" (fun _ => HttpResponse.failure (HttpFailure.statusError 503)) =
      Except.ok none :=
  ⟨(C4_geocode_absence "Paris" _).1 rfl,
   (C4_geocode_absence "Paris" _).2.1 rfl,
   (C4_geocode_absence "Paris" _).2.2.2.1 503 rfl⟩

/-- C8: the Forecast Fetcher passes the decoded body through unmodified on
success, returns the absence signal `none` on every transport failure, and
consults only the first (single) HTTP call: its result depends only on
response 0, so no retry is ever attempted. -/
theorem C8_fetch_weather_passthrough {α : Type} (lat lon : Rat) (days : Nat)
    (responses : Nat → HttpResponse α) :
    (∀ body, responses 0 = HttpResponse.success body →
        fetch_weather lat lon days responses = some body) ∧
    (∀ e, responses 0 = HttpResponse.failure e →
        fetch_weather lat lon days responses = none) ∧
    (∀ responses2 : Nat → HttpResponse α, responses 0 = responses2 0 →
        fetch_weather lat lon days responses = fetch_weather lat lon days responses2) := by
  refine ⟨fun body h => ?_, fun e h => ?_, fun responses2 h => ?_⟩ <;>
    unfold fetch_weather <;> rw [h]

theorem C8_fetch_weather_passthrough_witness :
    fetch_weather 1 2 7 (fun _ => HttpResponse.success (42 : Nat)) = some 42 ∧
    fetch_weather 1 2 7 (fun _ => (HttpResponse.failure HttpFailure.timeout : HttpResponse Nat)) = none :=
  ⟨(C8_fetch_weather_passthrough 1 2 7 _).1 42 rfl,
   (C8_fetch_weather_passthrough 1 2 7 _).2.1 HttpFailure.timeout rfl⟩

/-- C10: on a successful geocoding response, the returned Location's display
name is the first candidate's `display_name` when present, and falls back to
the original query string when the field is absent. -/
theorem C10_display_name_fallback (query : String)
    (responses : Nat → HttpResponse GeoBody) (item : GeoItem)
    (rest : List GeoItem)
    (hresp : responses 0 = HttpResponse.success (GeoBody.list (item :: rest)))
    (x y : Rat) (hx : pyFloat item.lat = Except.ok x)
    (hy : pyFloat item.lon = Except.ok y) :
    ∃ loc : Location,
      geocode_location query responses = Except.ok (some loc) ∧
      loc.lat = x ∧ loc.lon = y ∧
      (item.display_name = none → loc.name = query) ∧
      (∀ s, item.display_name = some s → loc.name = s) := by
  refine ⟨⟨x, y, item.display_name.getD query⟩, ?_, rfl, rfl, ?_, ?_⟩
  · simp [geocode_location, hresp, hx, hy]
  · intro h; rw [h]; rfl
  · intro s h; rw [h]; rfl

theorem C10_display_name_fallback_witness :
    (∃ loc : Location,
      geocode_location "Karachi"
          (fun _ => HttpResponse.success (GeoBody.list
            [⟨some "24.86", some "67.00", none⟩])) = Except.ok (some loc) ∧
      loc.lat = mkRat 2486 100 ∧ loc.lon = mkRat 6700 100 ∧
      ((⟨some "24.86", some "67.00", none⟩ : GeoItem).display_name = none →
        loc.name = "Karachi") ∧
      (∀ s, (⟨some "24.86", some "67.00", none⟩ : GeoItem).display_name = some s →
        loc.name = s)) ∧
    (∃ loc : Location,
      geocode_location "Karachi"
          (fun _ => HttpResponse.success (GeoBody.list
            [⟨some "24.86", some "67.00", some "Karachi, Sindh, Pakistan"⟩])) =
        Except.ok (some loc) ∧
      loc.lat = mkRat 2486 100 ∧ loc.lon = mkRat 6700 100 ∧
      ((⟨some "24.86", some "67.00", some "Karachi, Sindh, Pakistan"⟩ : GeoItem).display_name = none →
        loc.name = "Karachi") ∧
      (∀ s, (⟨some "24.86", some "67.00", some "Karachi, Sindh, Pakistan"⟩ : GeoItem).display_name = some s →
        loc.name = s)) :=
  ⟨C10_display_name_fallback "Karachi" _ _ [] rfl (mkRat 2486 100) (mkRat 6700 100) rfl rfl,
   C10_display_name_fallback "Karachi" _ _ [] rfl (mkRat 2486 100) (mkRat 6700 100) rfl rfl⟩

/-- Shape of `make_daily_dataframe` on a daily block with all five keys
present, a nonempty date list, and every date string parseable: it succeeds
and returns one row per date, row `i` built from the parsed date `ts[i]` and
the bounds-checked component lookups at index `i`. -/
theorem make_daily_ok (dates : List String) (tmax tmin precip : List Rat)
    (wcode : List Int) (ts : List Timestamp)
    (hne : dates ≠ []) (hparse : dates.mapM parseDateString = some ts) :
    make_daily_dataframe (some (mkDaily dates tmax tmin precip wcode)) =
      Except.ok (some (ts.enum.map (fun p =>
        { date := p.2,
          tmax := tmax.get? p.1,
          tmin := tmin.get? p.1,
          precip_mm := precip.get? p.1,
          weather_text := (wcode.get? p.1).map weathercode_to_text }))) := by
  cases dates with
  | nil => exact absurd rfl hne
  | cons d ds =>
      simp only [make_daily_dataframe, mkDaily, dailyFalsy, Option.isNone_some,
        Bool.false_and, Bool.false_eq_true, if_false, Option.getD_some,
        List.isEmpty_cons, hparse]

/-- Indexing into the rows produced by `make_daily_ok`. -/
theorem make_daily_rows_get (tmax tmin precip : List Rat) (wcode : List Int)
    (ts : List Timestamp) (i : Nat) :
    (ts.enum.map (fun p =>
      ({ date := p.2,
         tmax := tmax.get? p.1,
         tmin := tmin.get? p.1,
         precip_mm := precip.get? p.1,
         weather_text := (wcode.get? p.1).map weathercode_to_text } : Row))).get? i =
      (ts.get? i).map (fun t =>
        ({ date := t,
           tmax := tmax.get? i,
           tmin := tmin.get? i,
           precip_mm := precip.get? i,
           weather_text := (wcode.get? i).map weathercode_to_text } : Row)) := by
  rw [List.get?_map, List.get?_enum]
  cases ts.get? i <;> rfl

/-- A successful `parseDateString` always yields midnight with no timezone. -/
theorem parseDateString_shape (s : String) (t : Timestamp)
    (h : parseDateString s = some t) :
    t.nsOfDay = 0 ∧ t.tzOffsetMinutes = none := by
  unfold parseDateString at h
  repeat' split at h
  all_goals simp_all
  all_goals (cases h; exact ⟨rfl, rfl⟩)

/-- C1: for a date sequence of length n and any component sequence of length
m < n, the normalizer produces exactly n records and the last n − m records
have an absent value for that component; the length mismatch itself never
raises (the result is `Except.ok`, i.e. a normal return). -/
theorem C1_short_component_absent (dates : List String)
    (tmax tmin precip : List Rat) (wcode : List Int) (ts : List Timestamp)
    (hparse : dates.mapM parseDateString = some ts)
    (n m : Nat) (hn : dates.length = n) (hm : m < n) :
    ∃ rows : List Row,
      make_daily_dataframe (some (mkDaily dates tmax tmin precip wcode)) =
        Except.ok (some rows) ∧
      rows.length = n ∧
      (tmax.length = m → ∀ i r, rows.get? i = some r → m ≤ i → r.tmax = none) ∧
      (tmin.length = m → ∀ i r, rows.get? i = some r → m ≤ i → r.tmin = none) ∧
      (precip.length = m → ∀ i r, rows.get? i = some r → m ≤ i →
        r.precip_mm = none) ∧
      (wcode.length = m → ∀ i r, rows.get? i = some r → m ≤ i →
        r.weather_text = none) := by
  have hne : dates ≠ [] := by
    intro h
    rw [h] at hn
    simp at hn
    omega
  obtain ⟨hlen, hget⟩ := mapM_option_spec parseDateString dates ts hparse
  refine ⟨_, make_daily_ok dates tmax tmin precip wcode ts hne hparse,
    by simp [hlen, hn], ?_, ?_, ?_, ?_⟩
  · intro hm2 i r hr hmi
    rw [make_daily_rows_get] at hr
    cases hts : ts.get? i with
    | none => rw [hts] at hr; cases hr
    | some t =>
        rw [hts] at hr
        cases hr
        exact List.get?_eq_none.mpr (by omega)
  · intro hm2 i r hr hmi
    rw [make_daily_rows_get] at hr
    cases hts : ts.get? i with
    | none => rw [hts] at hr; cases hr
    | some t =>
        rw [hts] at hr
        cases hr
        exact List.get?_eq_none.mpr (by omega)
  · intro hm2 i r hr hmi
    rw [make_daily_rows_get] at hr
    cases hts : ts.get? i with
    | none => rw [hts] at hr; cases hr
    | some t =>
        rw [hts] at hr
        cases hr
        exact List.get?_eq_none.mpr (by omega)
  · intro hm2 i r hr hmi
    rw [make_daily_rows_get] at hr
    cases hts : ts.get? i with
    | none => rw [hts] at hr; cases hr
    | some t =>
        rw [hts] at hr
        cases hr
        show (wcode.get? i).map weathercode_to_text = none
        rw [List.get?_eq_none.mpr (by omega)]
        rfl

theorem C1_short_component_absent_witness :
    ∃ rows : List Row,
      make_daily_dataframe (some (mkDaily
        ["2024-01-01", "2024-01-02", "2024-01-03"] [10] [2] [0] [0])) =
        Except.ok (some rows) ∧
      rows.length = 3 ∧
      (([(10 : Rat)]).length = 1 → ∀ i r, rows.get? i = some r → 1 ≤ i →
        r.tmax = none) ∧
      (([(2 : Rat)]).length = 1 → ∀ i r, rows.get? i = some r → 1 ≤ i →
        r.tmin = none) ∧
      (([(0 : Rat)]).length = 1 → ∀ i r, rows.get? i = some r → 1 ≤ i →
        r.precip_mm = none) ∧
      (([(0 : Int)]).length = 1 → ∀ i r, rows.get? i = some r → 1 ≤ i →
        r.weather_text = none) :=
  C1_short_component_absent ["2024-01-01", "2024-01-02", "2024-01-03"]
    [10] [2] [0] [0]
    [⟨⟨2024, 1, 1⟩, 0, none⟩, ⟨⟨2024, 1, 2⟩, 0, none⟩, ⟨⟨2024, 1, 3⟩, 0, none⟩]
    rfl 3 1 rfl (by decide)

/-- C6: record i of the normalizer's output takes max/min temperature and
precipitation from the respective component sequence at index i when that
index exists there (`List.get?`), and absent otherwise; its condition text is
the weather code translator applied to the weather-code sequence at index i
when that index exists and absent otherwise; and record i corresponds to
date i of the input, so output order equals input date order with no
sorting, filtering, or deduplication. -/
theorem C6_indexwise_components (dates : List String)
    (tmax tmin precip : List Rat) (wcode : List Int) (ts : List Timestamp)
    (hne : dates ≠ []) (hparse : dates.mapM parseDateString = some ts) :
    ∃ rows : List Row,
      make_daily_dataframe (some (mkDaily dates tmax tmin precip wcode)) =
        Except.ok (some rows) ∧
      rows.length = dates.length ∧
      ∀ i r, rows.get? i = some r →
        r.tmax = tmax.get? i ∧
        r.tmin = tmin.get? i ∧
        r.precip_mm = precip.get? i ∧
        r.weather_text = (wcode.get? i).map weathercode_to_text ∧
        (dates.get? i).bind parseDateString = some r.date := by
  obtain ⟨hlen, hget⟩ := mapM_option_spec parseDateString dates ts hparse
  refine ⟨_, make_daily_ok dates tmax tmin precip wcode ts hne hparse,
    by simp [hlen], ?_⟩
  intro i r hr
  rw [make_daily_rows_get] at hr
  cases hts : ts.get? i with
  | none => rw [hts] at hr; cases hr
  | some t =>
      rw [hts] at hr
      cases hr
      refine ⟨rfl, rfl, rfl, rfl, ?_⟩
      rw [← hget i]
      exact hts

theorem C6_indexwise_components_witness :
    ∃ rows : List Row,
      make_daily_dataframe (some (mkDaily ["2024-01-01", "2024-01-02"]
        [10, 12] [2, 3] [0, 5] [0, 61])) = Except.ok (some rows) ∧
      rows.length = (["2024-01-01", "2024-01-02"]).length ∧
      ∀ i r, rows.get? i = some r →
        r.tmax = ([(10 : Rat), 12]).get? i ∧
        r.tmin = ([(2 : Rat), 3]).get? i ∧
        r.precip_mm = ([(0 : Rat), 5]).get? i ∧
        r.weather_text = (([(0 : Int), 61]).get? i).map weathercode_to_text ∧
        ((["2024-01-01", "2024-01-02"]).get? i).bind parseDateString =
          some r.date :=
  C6_indexwise_components ["2024-01-01", "2024-01-02"] [10, 12] [2, 3] [0, 5]
    [0, 61] [⟨⟨2024, 1, 1⟩, 0, none⟩, ⟨⟨2024, 1, 2⟩, 0, none⟩]
    (by decide) rfl

/-- C7: the normalizer's output has one record per returned date, so a
request for `days` days against a payload with `dates.length ≤ days` dates
yields `dates.length` records — no error and no padding up to `days`. -/
theorem C7_shorter_series_no_padding (days : Nat) (dates : List String)
    (tmax tmin precip : List Rat) (wcode : List Int) (ts : List Timestamp)
    (hne : dates ≠ []) (hparse : dates.mapM parseDateString = some ts)
    (hle : dates.length ≤ days) :
    ∃ rows : List Row,
      make_daily_dataframe (some (mkDaily dates tmax tmin precip wcode)) =
        Except.ok (some rows) ∧
      rows.length = dates.length ∧
      rows.length ≤ days ∧
      (dates.length = days → rows.length = days) := by
  obtain ⟨hlen, _⟩ := mapM_option_spec parseDateString dates ts hparse
  refine ⟨_, make_daily_ok dates tmax tmin precip wcode ts hne hparse,
    by simp [hlen], by simp [hlen]; omega, fun h => by simp [hlen, h]⟩

theorem C7_shorter_series_no_padding_witness :
    ∃ rows : List Row,
      make_daily_dataframe (some (mkDaily
        ["2024-01-01", "2024-01-02", "2024-01-03"]
        [10, 12, 11] [2, 3, 1] [0, 5, 2] [0, 61, 3])) =
        Except.ok (some rows) ∧
      rows.length = (["2024-01-01", "2024-01-02", "2024-01-03"]).length ∧
      rows.length ≤ 5 ∧
      ((["2024-01-01", "2024-01-02", "2024-01-03"]).length = 5 →
        rows.length = 5) :=
  C7_shorter_series_no_padding 5 ["2024-01-01", "2024-01-02", "2024-01-03"]
    [10, 12, 11] [2, 3, 1] [0, 5, 2] [0, 61, 3]
    [⟨⟨2024, 1, 1⟩, 0, none⟩, ⟨⟨2024, 1, 2⟩, 0, none⟩, ⟨⟨2024, 1, 3⟩, 0, none⟩]
    (by decide) rfl (by decide)

/-- C9: every record's date is the calendar date parsed from the
corresponding input date string, at midnight (zero nanoseconds into the
day) and timezone-naive — no time-of-day information and no timezone
arithmetic. -/
theorem C9_dates_calendar_naive (dates : List String)
    (tmax tmin precip : List Rat) (wcode : List Int) (ts : List Timestamp)
    (hne : dates ≠ []) (hparse : dates.mapM parseDateString = some ts) :
    ∃ rows : List Row,
      make_daily_dataframe (some (mkDaily dates tmax tmin precip wcode)) =
        Except.ok (some rows) ∧
      ∀ i r, rows.get? i = some r →
        r.date.nsOfDay = 0 ∧
        r.date.tzOffsetMinutes = none ∧
        (dates.get? i).bind parseDateString = some r.date := by
  obtain ⟨hlen, hget⟩ := mapM_option_spec parseDateString dates ts hparse
  refine ⟨_, make_daily_ok dates tmax tmin precip wcode ts hne hparse, ?_⟩
  intro i r hr
  rw [make_daily_rows_get] at hr
  cases hts : ts.get? i with
  | none => rw [hts] at hr; cases hr
  | some t =>
      rw [hts] at hr
      cases hr
      have hbind : (dates.get? i).bind parseDateString = some t := by
        rw [← hget i]; exact hts
      cases hd : dates.get? i with
      | none => rw [hd] at hbind; cases hbind
      | some s =>
          rw [hd] at hbind
          obtain ⟨h0, htz⟩ := parseDateString_shape s t hbind
          exact ⟨h0, htz, hbind⟩

theorem C9_dates_calendar_naive_witness :
    ∃ rows : List Row,
      make_daily_dataframe (some (mkDaily ["2024-01-01", "2024-01-02"]
        [10, 12] [2, 3] [0, 5] [0, 61])) = Except.ok (some rows) ∧
      ∀ i r, rows.get? i = some r →
        r.date.nsOfDay = 0 ∧
        r.date.tzOffsetMinutes = none ∧
        ((["2024-01-01", "2024-01-02"]).get? i).bind parseDateString =
          some r.date :=
  C9_dates_calendar_naive ["2024-01-01", "2024-01-02"] [10, 12] [2, 3] [0, 5]
    [0, 61] [⟨⟨2024, 1, 1⟩, 0, none⟩, ⟨⟨2024, 1, 2⟩, 0, none⟩]
    (by decide) rfl

/-- C5: normalizing the round-trip payload of the spec yields exactly the
two documented records: (2024-01-01, 10.0, 2.0, 0.0, "Clear sky") and
(2024-01-02, 12.0, 3.0, 5.0, "Rain: Slight"). -/
theorem C5_roundtrip_payload :
    make_daily_dataframe (some (mkDaily ["2024-01-01", "2024-01-02"]
        [10, 12] [2, 3] [0, 5] [0, 61])) =
      Except.ok (some
        [{ date := ⟨⟨2024, 1, 1⟩, 0, none⟩, tmax := some 10, tmin := some 2,
           precip_mm := some 0, weather_text := some "Clear sky" },
         { date := ⟨⟨2024, 1, 2⟩, 0, none⟩, tmax := some 12, tmin := some 3,
           precip_mm := some 5, weather_text := some "Rain: Slight" }]) := rfl

/-- C3: the normalizer returns `None` (no error) when `daily_json` is Python
`None` or an empty dict, but on a non-empty daily block whose date sequence
is absent or empty — `{"time": []}` or a block with only a component key —
`pd.DataFrame([])` has no columns and `df["date"]` raises `KeyError`, so
the code raises instead of returning an empty/absent result. -/
theorem C3_empty_dates_keyerror :
    make_daily_dataframe none = Except.ok none ∧
    make_daily_dataframe (some ⟨none, none, none, none, none⟩) =
      Except.ok none ∧
    make_daily_dataframe (some ⟨some [], none, none, none, none⟩) =
      Except.error "KeyError: date" ∧
    make_daily_dataframe (some ⟨none, some [20], none, none, none⟩) =
      Except.error "KeyError: date" :=
  ⟨rfl, rfl, rfl, rfl⟩

end WeatherApp
